import Mathlib

/-!
Shallow embedding of the playback-navigation core of `manim-slides`
(`src/manim_slides/present/player.py` and `src/manim_slides/present/__init__.py`).

Pure data is translated to Lean structures; the Qt `QMediaPlayer` state that
the code observes (playback state, position, duration, media status, loop
count, loaded source URL) is carried explicitly in a `PlayerState` record, and
each Python method becomes a state-passing function.  Signal emission
(`slide_load_signal.emit()`) is modelled by returning the number of
`SlideChanged` emissions next to the new state.  Media durations, which in the
program come from the decoded asset, are carried as a `dur` field on each
slide (the design invariant states forward and reverse assets share one
duration).  The floating-point percentage `int((position/duration)*100)` is
modelled with exact integer division, which agrees with truncation on the
non-negative values involved.
-/

namespace ManimSlides

/-- `PresentationSlide` from `player.py`: one playable unit.  `dur` abstracts
the duration of the referenced media assets (both assets share it by the
stated invariant); the other fields are the constructor arguments. -/
structure PresentationSlide where
  file : String
  rev_file : String
  thumbnail : String
  loop : Bool
  auto_next : Bool
  notes : String
  dur : Nat
  deriving Repr, DecidableEq

/-- Default slide used by the guarded list accessors (never reached when the
index is in the Python-valid range). -/
def dfltSlide : PresentationSlide :=
  ⟨"", "", "", false, false, "", 0⟩

/-- Python list indexing `l[i]`: non-negative indices from the front,
negative indices from the back (`l[-1]` is the last element).  An access that
would raise `IndexError` in Python returns the default `d`. -/
def pyGetD {α : Type} (l : List α) (i : Int) (d : α) : α :=
  if 0 ≤ i then l.getD i.toNat d
  else if (-i).toNat ≤ l.length then l.getD (l.length - (-i).toNat) d
  else d

/-- Observable state of `PresentationPlayer` together with the wrapped
`QMediaPlayer` fields the code reads and writes:
`slide_index`/`playingForward`/`slides`/`exit_after_last_slide` are the
Python attributes; `playing` models `isPlaying()`; `position`/`duration`
model `position()`/`duration()`; `atEndOfMedia` models
`mediaStatus() == EndOfMedia`; `loops` models the `setLoops` value; `source`
is the URL passed to `setSource` (the loaded asset). -/
structure PlayerState where
  slides : List PresentationSlide
  slide_index : Int
  playingForward : Bool
  playing : Bool
  position : Nat
  duration : Nat
  atEndOfMedia : Bool
  loops : Int
  source : Option String
  exit_after_last_slide : Bool
  deriving Repr, DecidableEq

/-- `PresentationPlayer.load_slide(index, paused, reversed, end)`.
Out-of-range indices only log and return.  Otherwise: set the reference
index and direction, `setSource` the forward or reverse asset (resetting
position and media status, and exposing the asset's duration), `setLoops(-1)`
iff the slide loops and is not reversed, optionally seek to the end, pause or
play, and emit the slide-changed signal exactly once.  The returned `Nat`
counts `SlideChanged` emissions. -/
def load_slide (s : PlayerState) (index : Int) (paused reversed seekEnd : Bool) :
    PlayerState × Nat :=
  if (s.slides.length : Int) ≤ index then (s, 0)
  else if index < 0 then (s, 0)
  else
    let slide := s.slides.getD index.toNat dfltSlide
    ({ s with
        slide_index := index
        playingForward := !reversed
        source := some (if reversed then slide.rev_file else slide.file)
        duration := slide.dur
        atEndOfMedia := false
        loops := if slide.loop && !reversed then -1 else 1
        position := if seekEnd then slide.dur else 0
        playing := !paused }, 1)

/-- `isLooping(self)`: playing and the current slide's loop flag (Python
short-circuits, so the list is only indexed while playing). -/
def isLooping (s : PlayerState) : Bool :=
  s.playing && (pyGetD s.slides s.slide_index dfltSlide).loop

/-- `isPlayingForward(self)`. -/
def isPlayingForward (s : PlayerState) : Bool :=
  s.playing && s.playingForward

/-- `isPlayingBackward(self)`. -/
def isPlayingBackward (s : PlayerState) : Bool :=
  s.playing && !s.playingForward

/-- `PresentationPlayer.next`, branch for branch.  Playing forward and not
looping: pause and seek to the end.  Looping: load the next slide playing.
Playing backward: load `slide_index + 1` paused forward.  Not playing: at
end-of-media load the next slide playing; at position 0 reload the current
slide playing; at position = duration load the next slide playing; otherwise
just resume play. -/
def next (s : PlayerState) : PlayerState × Nat :=
  if isPlayingForward s && !isLooping s then
    ({ s with playing := false, position := s.duration }, 0)
  else if isLooping s then
    load_slide s (s.slide_index + 1) false false false
  else if isPlayingBackward s then
    load_slide s (s.slide_index + 1) true false false
  else if s.atEndOfMedia then
    load_slide s (s.slide_index + 1) false false false
  else if s.position == 0 then
    load_slide s s.slide_index false false false
  else if s.position == s.duration then
    load_slide s (s.slide_index + 1) false false false
  else
    ({ s with playing := true }, 0)

/-- `PresentationPlayer.previous`, branch for branch.  Playing a looping
slide: pause, load the same slide in reverse playing, and seek to
`duration - position`.  Otherwise playing: reload the current slide paused
forward.  Not playing with `slide_index > 0`: at end-of-media load the
current slide in reverse playing, then decrement `slide_index`; otherwise
load `slide_index - 1` in reverse playing, then decrement `slide_index`
(the Python `self.slide_index -= 1` runs after `load_slide` has already
updated the attribute).  At index 0 not playing: log only. -/
def previous (s : PlayerState) : PlayerState × Nat :=
  if s.playing then
    if (pyGetD s.slides s.slide_index dfltSlide).loop then
      let rev_position := s.duration - s.position
      let r := load_slide s s.slide_index false true false
      ({ r.1 with position := rev_position }, r.2)
    else
      load_slide s s.slide_index true false false
  else if 0 < s.slide_index then
    if s.atEndOfMedia then
      let r := load_slide s s.slide_index false true false
      ({ r.1 with slide_index := r.1.slide_index - 1 }, r.2)
    else
      let r := load_slide s (s.slide_index - 1) false true false
      ({ r.1 with slide_index := r.1.slide_index - 1 }, r.2)
  else (s, 0)

/-- Result of the end-of-media handler: either a new state (with the count of
`SlideChanged` emissions) or process termination via `exit(code)`. -/
inductive MediaOutcome
  | cont (s : PlayerState) (emits : Nat)
  | exited (code : Nat)
  deriving Repr, DecidableEq

/-- Body of `PresentationPlayer.media_finished` for the `EndOfMedia` status:
`setLoops(1)` unless the current slide loops and we play forward; if the
current slide has `auto_next` and we play forward, delegate to `next()`; if
this was the last slide and `exit_after_last_slide` is set, `exit(0)`; if
playing backward on a looping slide, reload it paused forward; otherwise
pre-stage the next slide paused forward. -/
def media_finished (s : PlayerState) : MediaOutcome :=
  let cur := pyGetD s.slides s.slide_index dfltSlide
  let s1 := if !cur.loop || !s.playingForward then { s with loops := 1 } else s
  if cur.auto_next && s1.playingForward then
    let r := next s1
    .cont r.1 r.2
  else if s1.slide_index == (s1.slides.length : Int) - 1 && s1.exit_after_last_slide then
    .exited 0
  else if !s1.playingForward && cur.loop then
    let r := load_slide s1 s1.slide_index true false false
    .cont r.1 r.2
  else
    let r := load_slide s1 (s1.slide_index + 1) true false false
    .cont r.1 r.2

/-- The end-of-media event as delivered by the media primitive: playback
stops (the position rests at the media end, the status reports end of media)
and then the connected `media_finished` handler runs. -/
def endOfMedia (s : PlayerState) : MediaOutcome :=
  media_finished { s with playing := false, atEndOfMedia := true, position := s.duration }

/-- `PresentationPlayer.__init__`: a fresh `QMediaPlayer` (stopped, position
0, single playthrough, no source) with the given slide list, start index and
forward direction, immediately running `load_slide(start_slide, start_paused,
False)`. -/
def init_player (slides : List PresentationSlide) (start_slide : Int)
    (start_paused exit_after_last_slide : Bool) : PlayerState × Nat :=
  load_slide
    { slides := slides
      slide_index := start_slide
      playingForward := true
      playing := false
      position := 0
      duration := 0
      atEndOfMedia := false
      loops := 1
      source := none
      exit_after_last_slide := exit_after_last_slide }
    start_slide start_paused false false

/-- The percentage `int((position / duration) * 100)` computed in
`Info.position_changed`: exact truncating division on the non-negative
values involved. -/
def progress_perch (duration position : Nat) : Int :=
  ((position * 100) / duration : Nat)

/-- `Info.position_changed`: the pair `(index, value)` handed to
`SlideList.slide_play_position_updated`.  The index is
`slide_index + (1 if not playingForward else 0)`; the percentage is inverted
(`100 - perch`) when not playing forward. -/
def position_changed (s : PlayerState) (position : Nat) : Int × Int :=
  let index := s.slide_index + (if !s.playingForward then 1 else 0)
  let perch : Int := progress_perch s.duration position
  (index, if !s.playingForward then 100 - perch else perch)

/-- The clamp in `SlideList.slide_play_position_updated`:
`max(min(index, len(self.slide_list_elements)), 0)`. -/
def clamped_index (index : Int) (len : Nat) : Int :=
  max (min index (len : Int)) 0

/-- Per-slide fields read from a scene manifest (`SlideConfig`); `dur`
abstracts the duration of the referenced media, as in `PresentationSlide`. -/
structure SlideConfig where
  file : String
  rev_file : String
  thumbnail : String
  loop : Bool
  auto_next : Bool
  notes : String
  dur : Nat
  deriving Repr, DecidableEq

/-- Scene-level manifest fields consumed by the loader (`PresentationConfig`):
a resolution pair and the ordered slides of the scene. -/
structure PresentationConfig where
  resolution : Nat × Nat
  slides : List SlideConfig
  deriving Repr, DecidableEq

/-- The `PresentationSlide(...)` constructor call inside `load_presentation`. -/
def toSlide (c : SlideConfig) : PresentationSlide :=
  ⟨c.file, c.rev_file, c.thumbnail, c.loop, c.auto_next, c.notes, c.dur⟩

/-- `load_presentation`: iterate over the scene configs in order, taking the
component-wise `max` of the running resolution (started at `(0, 0)`) and
appending every slide of the scene. -/
def load_presentation (presentation_configs : List PresentationConfig) :
    List PresentationSlide × (Nat × Nat) :=
  presentation_configs.foldl
    (fun acc p =>
      (acc.1 ++ p.slides.map toSlide,
        (max p.resolution.1 acc.2.1, max p.resolution.2 acc.2.2)))
    ([], (0, 0))

/-- Python slice `l[:k]`: the first `k` elements for `k ≥ 0`, everything but
the last `-k` elements for `k < 0` (empty when `len + k ≤ 0`). -/
def pySliceTo {α : Type} (l : List α) (k : Int) : List α :=
  if 0 ≤ k then l.take k.toNat else l.take ((l.length : Int) + k).toNat

/-- The flat start index computed in `present`:
`start_at_slide_number + sum(len(x.slides) for x in
presentation_configs[:start_at_scene_number])`. -/
def resolve_slide_index (presentation_configs : List PresentationConfig)
    (start_at_scene_number start_at_slide_number : Int) : Int :=
  start_at_slide_number +
    ((pySliceTo presentation_configs start_at_scene_number).map
      (fun x => (x.slides.length : Int))).sum

/-- Startup resolution of the start-position directive in `present`: a
negative flat index logs an error and exits with status 2 (modelled as
`Except.error`); otherwise playback starts at the resolved index. -/
def present_start_index (presentation_configs : List PresentationConfig)
    (start_at_scene_number start_at_slide_number : Int) : Except String Int :=
  let slide_index :=
    resolve_slide_index presentation_configs start_at_scene_number start_at_slide_number
  if slide_index < 0 then .error "First slide is number 0" else .ok slide_index

/-- `0 ≤ current_index < N`, the index range stated by the data model. -/
def IndexInRange (s : PlayerState) : Prop :=
  0 ≤ s.slide_index ∧ s.slide_index < (s.slides.length : Int)

/-! ### Concrete slides and reachable states used by counterexamples -/

/-- A plain slide (no loop, no auto-next). -/
def demoX : PresentationSlide := ⟨"x", "xr", "xt", false, false, "", 10⟩

/-- A second plain slide. -/
def demoY : PresentationSlide := ⟨"y", "yr", "yt", false, false, "", 10⟩

/-- The state reached by starting `[demoX, demoY]` at index 0 playing and
letting `demoX` finish: the end-of-media handler pre-stages slide 1 paused at
its start (see `preStaged_reachable`). -/
def preStaged : PlayerState :=
  { slides := [demoX, demoY]
    slide_index := 1
    playingForward := true
    playing := false
    position := 0
    duration := 10
    atEndOfMedia := false
    loops := 1
    source := some "y"
    exit_after_last_slide := false }

/-- `preStaged` really is the state the engine reaches after the first slide
of `[demoX, demoY]` plays to its end. -/
lemma preStaged_reachable :
    endOfMedia (init_player [demoX, demoY] 0 false false).1 = .cont preStaged 1 := by
  decide

/-! ### C6, C7: the load operation -/

/-- In-range `load_slide` written out: the new player state field by field. -/
lemma load_slide_eq (s : PlayerState) (i : Int) (p r e : Bool)
    (h0 : 0 ≤ i) (h1 : i < (s.slides.length : Int)) :
    load_slide s i p r e =
      ({ s with
          slide_index := i
          playingForward := !r
          source := some (if r then (s.slides.getD i.toNat dfltSlide).rev_file
            else (s.slides.getD i.toNat dfltSlide).file)
          duration := (s.slides.getD i.toNat dfltSlide).dur
          atEndOfMedia := false
          loops := if (s.slides.getD i.toNat dfltSlide).loop && !r then -1 else 1
          position := if e then (s.slides.getD i.toNat dfltSlide).dur else 0
          playing := !p }, 1) := by
  unfold load_slide
  rw [if_neg (by omega), if_neg (by omega)]

/-- C6: for every in-range index `0 ≤ i < N`, `load(i, paused, reversed)`
emits `SlideChanged` exactly once whether it ends paused or playing, and
afterwards `current_index = i`, the direction is `Forward` iff `reversed` is
false, and the loaded asset is the slide's forward asset iff `reversed` is
false (its reverse asset otherwise). -/
theorem C6_load_consistent (s : PlayerState) (i : Int) (p r e : Bool)
    (h0 : 0 ≤ i) (h1 : i < (s.slides.length : Int)) :
    (load_slide s i p r e).2 = 1 ∧
    (load_slide s i p r e).1.slide_index = i ∧
    ((load_slide s i p r e).1.playingForward = true ↔ r = false) ∧
    (load_slide s i p r e).1.source =
      some (if r then (s.slides.getD i.toNat dfltSlide).rev_file
        else (s.slides.getD i.toNat dfltSlide).file) ∧
    (load_slide s i p r e).1.playing = !p := by
  rw [load_slide_eq s i p r e h0 h1]
  refine ⟨rfl, rfl, ?_, rfl, rfl⟩
  cases r <;> simp

/-- Witness for C6 at a concrete in-range load. -/
theorem C6_load_consistent_witness :
    (0 : Int) ≤ 0 ∧ (0 : Int) < (preStaged.slides.length : Int) ∧
    (load_slide preStaged 0 true false false).1.slide_index = 0 := by
  refine ⟨by decide, by decide, ?_⟩
  exact (C6_load_consistent preStaged 0 true false false (by decide) (by decide)).2.1

/-- C7: for every out-of-range index, `load` is a no-op that only logs: the
whole state is unchanged and no `SlideChanged` is emitted. -/
theorem C7_load_out_of_range (s : PlayerState) (i : Int) (p r e : Bool)
    (h : i < 0 ∨ (s.slides.length : Int) ≤ i) :
    load_slide s i p r e = (s, 0) := by
  unfold load_slide
  rcases h with h | h
  · rw [if_neg (by omega), if_pos h]
  · rw [if_pos h]

/-- Witness for C7 at a concrete out-of-range load. -/
theorem C7_load_out_of_range_witness :
    ((2 : Int) < 0 ∨ (preStaged.slides.length : Int) ≤ 2) ∧
    load_slide preStaged 2 false false false = (preStaged, 0) := by
  refine ⟨Or.inr (by decide), ?_⟩
  exact C7_load_out_of_range preStaged 2 false false false (Or.inr (by decide))

/-! ### C10: the slide-list clamp -/

/-- C10 fails as stated: with one list element and incoming index 1 (the
`current_index + 1` key on the last slide), the clamp
`max(min(index, len), 0)` returns 1, which is not strictly below the list
length, so the subsequent element lookup is out of bounds. -/
theorem C10_counterexample :
    clamped_index 1 1 = 1 ∧ ¬ clamped_index 1 1 < ((1 : Nat) : Int) := by
  decide

/-- C10 (amended): the clamp only bounds the index into `[0, len]`, one past
the valid range; the clamped value is a valid list index whenever the
incoming index is already strictly below the length (and the list is
non-empty), but an incoming index equal to the length passes the clamp
unchanged and the lookup fails. -/
theorem C10_clamp (index : Int) (len : Nat) :
    0 ≤ clamped_index index len ∧ clamped_index index len ≤ (len : Int) ∧
    (0 < len → index < (len : Int) → clamped_index index len < (len : Int)) := by
  unfold clamped_index
  rcases le_total index (len : Int) with h | h <;>
    rcases le_total index 0 with h0 | h0 <;>
      simp [max_def, min_def, h, h0] <;> omega

/-! ### C3: the presenter's progress keying -/

/-- C3 fails as stated: `preStaged` is playing forward (direction `Forward`)
with `current_index = 1`, yet the progress update is keyed by 1, not by
`current_index + 1 = 2` as claimed — the code keys by `current_index` when
forward and `current_index + 1` when backward, the opposite of the claim. -/
theorem C3_counterexample :
    preStaged.playingForward = true ∧
    (position_changed preStaged 5).1 ≠ preStaged.slide_index + 1 := by
  decide

/-- C3 (amended): on a position update the view computes
`percentage = position/duration` and sends it to the indicator keyed by
`current_index` when the direction is forward; when the direction is
backward it sends the inverted percentage (`100 − percentage`) keyed by
`current_index + 1`. -/
theorem C3_position_update (s : PlayerState) (pos : Nat) :
    (s.playingForward = true →
      position_changed s pos = (s.slide_index, progress_perch s.duration pos)) ∧
    (s.playingForward = false →
      position_changed s pos = (s.slide_index + 1, 100 - progress_perch s.duration pos)) := by
  unfold position_changed
  cases h : s.playingForward <;> simp

/-- Witness for C3 at a concrete forward state. -/
theorem C3_position_update_witness :
    preStaged.playingForward = true ∧
    position_changed preStaged 5 = (preStaged.slide_index, progress_perch preStaged.duration 5) := by
  refine ⟨by decide, ?_⟩
  exact (C3_position_update preStaged 5).1 (by decide)

/-- Witness for C10 at a concrete index below the length. -/
theorem C10_clamp_witness :
    0 < 3 ∧ (2 : Int) < ((3 : Nat) : Int) ∧ clamped_index 2 3 < ((3 : Nat) : Int) := by
  refine ⟨by decide, by decide, ?_⟩
  exact (C10_clamp 2 3).2.2 (by decide) (by decide)

/-! ### Shared navigation lemmas -/

/-- Out-of-range `load_slide` leaves the state untouched and emits nothing. -/
lemma load_slide_noop (s : PlayerState) (i : Int) (p r e : Bool)
    (h : i < 0 ∨ (s.slides.length : Int) ≤ i) :
    load_slide s i p r e = (s, 0) := by
  unfold load_slide
  rcases h with h | h
  · rw [if_neg (by omega), if_pos h]
  · rw [if_pos h]

/-- `load_slide` never changes the slide list. -/
lemma load_slide_fst_slides (s : PlayerState) (i : Int) (p r e : Bool) :
    (load_slide s i p r e).1.slides = s.slides := by
  rcases lt_or_le i 0 with h1 | h1
  · rw [load_slide_noop s i p r e (Or.inl h1)]
  · rcases lt_or_le i (s.slides.length : Int) with h2 | h2
    · rw [load_slide_eq s i p r e h1 h2]
    · rw [load_slide_noop s i p r e (Or.inr h2)]

/-- `load_slide` keeps the index in range. -/
lemma load_slide_inv (s : PlayerState) (i : Int) (p r e : Bool)
    (h : IndexInRange s) : IndexInRange (load_slide s i p r e).1 := by
  rcases lt_or_le i 0 with h1 | h1
  · rw [load_slide_noop s i p r e (Or.inl h1)]; exact h
  · rcases lt_or_le i (s.slides.length : Int) with h2 | h2
    · rw [load_slide_eq s i p r e h1 h2]; exact ⟨h1, h2⟩
    · rw [load_slide_noop s i p r e (Or.inr h2)]; exact h

/-- `next` keeps the index in range. -/
lemma next_inv (s : PlayerState) (h : IndexInRange s) : IndexInRange (next s).1 := by
  unfold next
  split_ifs with h1 h2 h3 h4 h5 h6
  · exact h
  · exact load_slide_inv _ _ _ _ _ h
  · exact load_slide_inv _ _ _ _ _ h
  · exact load_slide_inv _ _ _ _ _ h
  · exact load_slide_inv _ _ _ _ _ h
  · exact load_slide_inv _ _ _ _ _ h
  · exact h

/-- The end-of-media handler keeps the index in range whenever the process
survives. -/
lemma media_finished_inv (s : PlayerState) (h : IndexInRange s) :
    ∀ s2 n, media_finished s = .cont s2 n → IndexInRange s2 := by
  intro s2 n heq
  unfold media_finished at heq
  dsimp only at heq
  split_ifs at heq with h1 h2 h3 h4 h5 h6 h7 <;>
    (injection heq with hA hB
     subst hA
     first
       | exact next_inv _ h
       | exact load_slide_inv _ _ _ _ _ h)

/-- `previous` in the pre-staged case (not playing, not at end of media,
`0 < slide_index < N`), written out: the slide `slide_index - 1` is loaded
playing in reverse and the stored index then drops to `slide_index - 2`. -/
lemma previous_prestaged_eq (s : PlayerState)
    (hp : s.playing = false) (he : s.atEndOfMedia = false)
    (hi : 0 < s.slide_index) (hn : s.slide_index < (s.slides.length : Int)) :
    previous s =
      ({ s with
          slide_index := s.slide_index - 2
          playingForward := false
          source := some (s.slides.getD (s.slide_index - 1).toNat dfltSlide).rev_file
          duration := (s.slides.getD (s.slide_index - 1).toNat dfltSlide).dur
          atEndOfMedia := false
          loops := 1
          position := 0
          playing := true }, 1) := by
  unfold previous
  rw [if_neg (by simp [hp]), if_pos hi, if_neg (by simp [he]),
    load_slide_eq s (s.slide_index - 1) false true false (by omega) (by omega)]
  dsimp only
  simp [Prod.mk.injEq, PlayerState.mk.injEq, and_true, true_and]
  omega

/-! ### C2: previous in the pre-staged case -/

/-- C2 fails as stated: from the reachable pre-staged state (not playing,
not at end of media, `current_index = 1`), `previous()` does load slide 0's
reverse asset, but it leaves the player *playing*, not paused. -/
theorem C2_counterexample :
    preStaged.playing = false ∧ preStaged.atEndOfMedia = false ∧
    0 < preStaged.slide_index ∧
    (previous preStaged).1.source = some demoX.rev_file ∧
    ¬ (previous preStaged).1.playing = false := by
  decide

/-- C2 (amended): in the pre-staged case the engine loads segment
`current_index − 1` in reverse direction *playing* (the code passes
`paused=False`), and the trailing decrement then runs on the index that
`load_slide` has already set to `current_index − 1`, so the stored index
ends at `current_index − 2`. -/
theorem C2_prestaged_previous (s : PlayerState)
    (hp : s.playing = false) (he : s.atEndOfMedia = false)
    (hi : 0 < s.slide_index) (hn : s.slide_index < (s.slides.length : Int)) :
    (previous s).2 = 1 ∧
    (previous s).1.source =
      some (s.slides.getD (s.slide_index - 1).toNat dfltSlide).rev_file ∧
    (previous s).1.playingForward = false ∧
    (previous s).1.playing = true ∧
    (previous s).1.position = 0 ∧
    (previous s).1.slide_index = s.slide_index - 2 := by
  rw [previous_prestaged_eq s hp he hi hn]
  exact ⟨rfl, rfl, rfl, rfl, rfl, rfl⟩

/-- Witness for C2 at the reachable pre-staged state. -/
theorem C2_prestaged_previous_witness :
    preStaged.playing = false ∧
    (previous preStaged).1.slide_index = preStaged.slide_index - 2 :=
  ⟨by decide,
    (C2_prestaged_previous preStaged (by decide) (by decide) (by decide) (by decide)).2.2.2.2.2⟩

/-- `previous` never changes the slide list. -/
lemma previous_fst_slides (s : PlayerState) : (previous s).1.slides = s.slides := by
  unfold previous
  split_ifs <;> simp [load_slide_fst_slides]

/-- From an in-range state, `previous` leaves the index in `[-1, N)`. -/
lemma previous_bounds (s : PlayerState) (h : IndexInRange s) :
    -1 ≤ (previous s).1.slide_index ∧
      (previous s).1.slide_index < (s.slides.length : Int) := by
  obtain ⟨hl, hr⟩ := h
  unfold previous
  split_ifs with h1 h2 h3 h4
  · have hinv := load_slide_inv s s.slide_index false true false ⟨hl, hr⟩
    have hsl := load_slide_fst_slides s s.slide_index false true false
    obtain ⟨a, b⟩ := hinv
    rw [hsl] at b
    constructor
    · show -1 ≤ (load_slide s s.slide_index false true false).1.slide_index
      omega
    · show (load_slide s s.slide_index false true false).1.slide_index <
        (s.slides.length : Int)
      omega
  · have hinv := load_slide_inv s s.slide_index true false false ⟨hl, hr⟩
    have hsl := load_slide_fst_slides s s.slide_index true false false
    obtain ⟨a, b⟩ := hinv
    rw [hsl] at b
    exact ⟨by omega, by omega⟩
  · rw [load_slide_eq s s.slide_index false true false (by omega) (by omega)]
    constructor
    · show -1 ≤ s.slide_index - 1
      omega
    · show s.slide_index - 1 < (s.slides.length : Int)
      omega
  · rw [load_slide_eq s (s.slide_index - 1) false true false (by omega) (by omega)]
    constructor
    · show -1 ≤ s.slide_index - 1 - 1
      omega
    · show s.slide_index - 1 - 1 < (s.slides.length : Int)
      omega
  · constructor
    · show -1 ≤ s.slide_index
      omega
    · show s.slide_index < (s.slides.length : Int)
      omega

/-! ### C1: the index-range invariant -/

/-- C1 fails as stated: `preStaged` is a reachable state with the index in
`[0, N)` (namely 1 of 2), not playing, not at end of media; yet `previous()`
leaves `slide_index = -1`, outside `[0, N)`. -/
theorem C1_counterexample :
    (0 ≤ preStaged.slide_index ∧
      preStaged.slide_index < (preStaged.slides.length : Int)) ∧
    preStaged.playing = false ∧ preStaged.atEndOfMedia = false ∧
    0 < preStaged.slide_index ∧
    (previous preStaged).1.slide_index = -1 := by
  decide

/-- C1 (amended): from a state with the index in `[0, N)`, `load`, `next`
and the end-of-media handling all leave the index in `[0, N)`, while
`previous` only guarantees `[-1, N)`: in the pre-staged case it lands at
`current_index − 2`, which is in range exactly when `current_index > 1`
(at `current_index = 1` the stored index becomes `-1`). -/
theorem C1_index_range (s : PlayerState) (h : IndexInRange s) :
    (∀ i p r e, IndexInRange (load_slide s i p r e).1) ∧
    IndexInRange (next s).1 ∧
    (∀ s2 n, media_finished s = .cont s2 n → IndexInRange s2) ∧
    (∀ s2 n, endOfMedia s = .cont s2 n → IndexInRange s2) ∧
    (-1 ≤ (previous s).1.slide_index ∧
      (previous s).1.slide_index < ((previous s).1.slides.length : Int)) ∧
    (s.playing = false → s.atEndOfMedia = false → 1 < s.slide_index →
      IndexInRange (previous s).1) := by
  obtain ⟨ha, hb⟩ := h
  refine ⟨fun i p r e => load_slide_inv s i p r e ⟨ha, hb⟩, next_inv s ⟨ha, hb⟩,
    media_finished_inv s ⟨ha, hb⟩, ?_, ?_, ?_⟩
  · intro s2 n heq
    unfold endOfMedia at heq
    exact media_finished_inv
      { s with playing := false, atEndOfMedia := true, position := s.duration }
      ⟨ha, hb⟩ s2 n heq
  · rw [previous_fst_slides s]
    exact previous_bounds s ⟨ha, hb⟩
  · intro hp he hi
    have hs1 : (previous s).1 = _ :=
      congrArg Prod.fst (previous_prestaged_eq s hp he (by omega) hb)
    rw [hs1]
    constructor
    · show (0 : Int) ≤ s.slide_index - 2
      omega
    · show s.slide_index - 2 < (s.slides.length : Int)
      omega

/-- Witness for C1 at the reachable pre-staged state. -/
theorem C1_index_range_witness :
    IndexInRange preStaged ∧ IndexInRange (next preStaged).1 :=
  ⟨⟨by decide, by decide⟩, (C1_index_range preStaged ⟨by decide, by decide⟩).2.1⟩

/-- `next` while playing backward on a non-looping slide loads
`slide_index + 1` paused forward. -/
lemma next_backward (s : PlayerState)
    (hp : s.playing = true) (hf : s.playingForward = false)
    (hl : (pyGetD s.slides s.slide_index dfltSlide).loop = false)
    (h0 : 0 ≤ s.slide_index + 1) (h1 : s.slide_index + 1 < (s.slides.length : Int)) :
    (next s).1.slide_index = s.slide_index + 1 ∧
    (next s).1.playingForward = true := by
  unfold next
  rw [if_neg (by simp [isPlayingForward, hp, hf]),
    if_neg (by simp [isLooping, hl]),
    if_pos (by simp [isPlayingBackward, hp, hf]),
    load_slide_eq s (s.slide_index + 1) true false false h0 h1]
  exact ⟨rfl, rfl⟩

/-- `next` while playing a looping slide loads `slide_index + 1` playing
forward (this also covers the accidental backward-looping reading, since
`isLooping` only consults the flag of the slide at the stored index). -/
lemma next_looping (s : PlayerState)
    (hp : s.playing = true)
    (hl : (pyGetD s.slides s.slide_index dfltSlide).loop = true)
    (h0 : 0 ≤ s.slide_index + 1) (h1 : s.slide_index + 1 < (s.slides.length : Int)) :
    (next s).1.slide_index = s.slide_index + 1 ∧
    (next s).1.playingForward = true := by
  unfold next
  rw [if_neg (by simp [isLooping, hp, hl]),
    if_pos (by simp [isLooping, hp, hl]),
    load_slide_eq s (s.slide_index + 1) false false false h0 h1]
  exact ⟨rfl, rfl⟩

/-! ### C5: the reverse-then-forward round trip -/

/-- C5 fails as stated: from the settled pre-staged state at index 1,
`previous()` followed by `next()` lands at index 0, not back at 1. -/
theorem C5_counterexample :
    preStaged.playing = false ∧ preStaged.position = 0 ∧
    preStaged.atEndOfMedia = false ∧ preStaged.playingForward = true ∧
    0 < preStaged.slide_index ∧
    (next (previous preStaged).1).1.slide_index ≠ preStaged.slide_index := by
  decide

/-- C5 (amended): from a settled state (not playing, at start of media, not
at end of media) with direction `Forward` and `0 < current_index < N`,
`previous()` immediately followed by `next()` lands at
`current_index − 1` with direction `Forward` (one slide short of a round
trip, because the pre-staged `previous` double-steps the index). -/
theorem C5_roundtrip (s : PlayerState)
    (hp : s.playing = false) (hpos : s.position = 0) (he : s.atEndOfMedia = false)
    (hf : s.playingForward = true)
    (hi : 0 < s.slide_index) (hn : s.slide_index < (s.slides.length : Int)) :
    (next (previous s).1).1.slide_index = s.slide_index - 1 ∧
    (next (previous s).1).1.playingForward = true := by
  have hs1 : (previous s).1 = _ :=
    congrArg Prod.fst (previous_prestaged_eq s hp he hi hn)
  have hplay : (previous s).1.playing = true := by rw [hs1]
  have hdir : (previous s).1.playingForward = false := by rw [hs1]
  have hidx : (previous s).1.slide_index = s.slide_index - 2 := by rw [hs1]
  have hsl : (previous s).1.slides = s.slides := by rw [hs1]
  have hb0 : 0 ≤ (previous s).1.slide_index + 1 := by omega
  have hb1 : (previous s).1.slide_index + 1 < ((previous s).1.slides.length : Int) := by
    rw [hsl]; omega
  cases hX : (pyGetD (previous s).1.slides (previous s).1.slide_index dfltSlide).loop
  · obtain ⟨a, b⟩ := next_backward (previous s).1 hplay hdir hX hb0 hb1
    exact ⟨by omega, b⟩
  · obtain ⟨a, b⟩ := next_looping (previous s).1 hplay hX hb0 hb1
    exact ⟨by omega, b⟩

/-- Witness for C5 at the reachable pre-staged state. -/
theorem C5_roundtrip_witness :
    preStaged.playing = false ∧
    (next (previous preStaged).1).1.slide_index = preStaged.slide_index - 1 :=
  ⟨by decide,
    (C5_roundtrip preStaged (by decide) (by decide) (by decide) (by decide)
      (by decide) (by decide)).1⟩

/-! ### C4: the auto-next / loop scenario -/

/-- Slide A of the scenario: no loop, auto-next. -/
def demoA : PresentationSlide := ⟨"a", "ar", "at", false, true, "", 10⟩

/-- Slide B of the scenario: loop, no auto-next. -/
def demoB : PresentationSlide := ⟨"b", "br", "bt", true, false, "", 10⟩

/-- Slide C of the scenario: no loop, no auto-next. -/
def demoC : PresentationSlide := ⟨"c", "cr", "ct", false, false, "", 10⟩

/-- The scenario's start: `[A, B, C]` loaded at index 0, playing forward. -/
def c4_start : PlayerState := (init_player [demoA, demoB, demoC] 0 false false).1

/-- The state after A's end of media: B loaded playing forward with infinite
repeat. -/
def c4_mid : PlayerState :=
  { slides := [demoA, demoB, demoC]
    slide_index := 1
    playingForward := true
    playing := true
    position := 0
    duration := 10
    atEndOfMedia := false
    loops := -1
    source := some "b"
    exit_after_last_slide := false }

/-- The state after one `next()` out of B's loop: C loaded from the start,
playing forward. -/
def c4_end : PlayerState :=
  { slides := [demoA, demoB, demoC]
    slide_index := 2
    playingForward := true
    playing := true
    position := 0
    duration := 10
    atEndOfMedia := false
    loops := 1
    source := some "c"
    exit_after_last_slide := false }

/-- C4 fails as stated on its last step: after the auto-advance into B, a
single `next()` while B loops does leave B for C, but it lands *playing* at
the start of C — the looping branch of `next` loads with `paused=False` —
not paused as claimed. -/
theorem C4_counterexample :
    endOfMedia c4_start = .cont c4_mid 1 ∧
    next c4_mid = (c4_end, 1) ∧
    ¬ c4_end.playing = false := by
  decide

/-- C4 (amended): for `[A(loop=false, auto_next=true), B(loop=true,
auto_next=false), C(loop=false, auto_next=false)]` started at 0 playing,
A's end of media alone advances the engine to B (playing forward, looping,
one `SlideChanged`), and a single explicit `next()` while B plays its loop
lands *playing* at the start of C. -/
theorem C4_auto_next_chain :
    endOfMedia c4_start = .cont c4_mid 1 ∧
    c4_mid.slide_index = 1 ∧ c4_mid.playing = true ∧
    c4_mid.playingForward = true ∧ c4_mid.loops = -1 ∧
    c4_mid.source = some demoB.file ∧
    next c4_mid = (c4_end, 1) ∧
    c4_end.slide_index = 2 ∧ c4_end.playing = true ∧
    c4_end.position = 0 ∧ c4_end.playingForward = true ∧
    c4_end.source = some demoC.file := by
  decide

/-! ### C8: the loader -/

/-- The loader's fold, with a generalized accumulator. -/
lemma load_presentation_fold (cs : List PresentationConfig)
    (acc : List PresentationSlide) (r1 r2 : Nat) :
    cs.foldl
      (fun acc p =>
        (acc.1 ++ p.slides.map toSlide,
          (max p.resolution.1 acc.2.1, max p.resolution.2 acc.2.2)))
      (acc, (r1, r2)) =
    (acc ++ (cs.map fun p => p.slides.map toSlide).flatten,
      ((cs.map fun p => p.resolution.1).foldl max r1,
       (cs.map fun p => p.resolution.2).foldl max r2)) := by
  induction cs generalizing acc r1 r2 with
  | nil => simp
  | cons p ps ih =>
    simp only [List.foldl_cons, List.map_cons, List.flatten_cons]
    rw [ih, List.append_assoc, Nat.max_comm r1 p.resolution.1,
      Nat.max_comm r2 p.resolution.2]

/-- The loader's result, closed form. -/
lemma load_presentation_eq (cs : List PresentationConfig) :
    load_presentation cs =
      ((cs.map fun p => p.slides.map toSlide).flatten,
        ((cs.map fun p => p.resolution.1).foldl max 0,
         (cs.map fun p => p.resolution.2).foldl max 0)) := by
  unfold load_presentation
  rw [load_presentation_fold cs [] 0 0]
  simp

/-- The seed of a `max`-fold never exceeds the result. -/
lemma self_le_foldl_max (l : List Nat) (a : Nat) : a ≤ l.foldl max a := by
  induction l generalizing a with
  | nil => simp
  | cons b t ih => exact le_trans (le_max_left a b) (ih (max a b))

/-- Every member of the list is bounded by the `max`-fold. -/
lemma mem_le_foldl_max (l : List Nat) (a x : Nat) (hx : x ∈ l) :
    x ≤ l.foldl max a := by
  induction l generalizing a with
  | nil => cases hx
  | cons b t ih =>
    rcases List.mem_cons.mp hx with rfl | hmem
    · exact le_trans (le_max_right a x) (self_le_foldl_max t (max a x))
    · exact ih (max a b) hmem

/-- The `max`-fold is a member of the list, or equals the seed. -/
lemma foldl_max_mem (l : List Nat) (a : Nat) :
    l.foldl max a ∈ l ∨ l.foldl max a = a := by
  induction l generalizing a with
  | nil => exact Or.inr rfl
  | cons b t ih =>
    rw [List.foldl_cons]
    rcases ih (max a b) with hmem | heq
    · exact Or.inl (List.mem_cons_of_mem b hmem)
    · rw [heq]
      rcases le_total a b with h | h
      · rw [max_eq_right h]
        exact Or.inl (List.mem_cons_self b t)
      · rw [max_eq_left h]
        exact Or.inr rfl

/-- On a non-empty `Nat` list, the `max`-fold seeded with 0 is attained. -/
lemma foldl_max_zero_attained (l : List Nat) (hl : l ≠ []) :
    ∃ x ∈ l, l.foldl max 0 = x := by
  rcases foldl_max_mem l 0 with hmem | heq
  · exact ⟨_, hmem, rfl⟩
  · cases l with
    | nil => exact absurd rfl hl
    | cons b t =>
      refine ⟨b, List.mem_cons_self b t, ?_⟩
      have hb := mem_le_foldl_max (b :: t) 0 b (List.mem_cons_self b t)
      rw [heq] at hb ⊢
      omega

/-- The two scene groups of the resolution example. -/
def demoCfgs : List PresentationConfig :=
  [{ resolution := (800, 600), slides := [] },
   { resolution := (1920, 1080), slides := [] }]

/-- C8: the loader flattens the groups' slides in group order (keeping each
group's internal order) and returns the component-wise maximum of the
groups' resolutions; in particular `(800, 600)` and `(1920, 1080)` combine
to `(1920, 1080)`. -/
theorem C8_load_presentation (cs : List PresentationConfig) :
    (load_presentation cs).1 = (cs.map fun p => p.slides.map toSlide).flatten ∧
    (∀ p ∈ cs, p.resolution.1 ≤ (load_presentation cs).2.1 ∧
      p.resolution.2 ≤ (load_presentation cs).2.2) ∧
    (cs ≠ [] →
      (∃ p ∈ cs, (load_presentation cs).2.1 = p.resolution.1) ∧
      (∃ q ∈ cs, (load_presentation cs).2.2 = q.resolution.2)) ∧
    load_presentation demoCfgs = ([], (1920, 1080)) := by
  refine ⟨?_, ?_, ?_, by decide⟩
  · rw [load_presentation_eq cs]
  · intro p hp
    rw [load_presentation_eq cs]
    exact ⟨mem_le_foldl_max _ 0 _ (List.mem_map_of_mem _ hp),
      mem_le_foldl_max _ 0 _ (List.mem_map_of_mem _ hp)⟩
  · intro hne
    rw [load_presentation_eq cs]
    constructor
    · obtain ⟨x, hx, hxe⟩ :=
        foldl_max_zero_attained (cs.map fun p => p.resolution.1)
          (by simpa using hne)
      obtain ⟨p, hp, rfl⟩ := List.mem_map.mp hx
      exact ⟨p, hp, hxe⟩
    · obtain ⟨x, hx, hxe⟩ :=
        foldl_max_zero_attained (cs.map fun p => p.resolution.2)
          (by simpa using hne)
      obtain ⟨q, hq, rfl⟩ := List.mem_map.mp hx
      exact ⟨q, hq, hxe⟩

/-- Witness for C8 on the two-group example. -/
theorem C8_load_presentation_witness :
    demoCfgs ≠ [] ∧
    ∃ p ∈ demoCfgs, (load_presentation demoCfgs).2.1 = p.resolution.1 :=
  ⟨by decide, ((C8_load_presentation demoCfgs).2.2.1 (by decide)).1⟩

/-! ### C9: the start-position directive -/

/-- C9: for a non-negative scene index the flat start index is the
intra-scene slide number plus the sum of the slide counts of all preceding
scenes, and startup refuses a negative resolved index (error and non-zero
exit) while a non-negative one starts playback there. -/
theorem C9_start_index (cs : List PresentationConfig) (sacn sasn : Int) :
    (0 ≤ sacn →
      resolve_slide_index cs sacn sasn =
        sasn + ((cs.take sacn.toNat).map fun x => (x.slides.length : Int)).sum) ∧
    (resolve_slide_index cs sacn sasn < 0 →
      present_start_index cs sacn sasn = .error "First slide is number 0") ∧
    (0 ≤ resolve_slide_index cs sacn sasn →
      present_start_index cs sacn sasn = .ok (resolve_slide_index cs sacn sasn)) := by
  refine ⟨?_, ?_, ?_⟩
  · intro h
    unfold resolve_slide_index pySliceTo
    rw [if_pos h]
  · intro h
    unfold present_start_index
    rw [if_pos h]
  · intro h
    unfold present_start_index
    rw [if_neg (by omega)]

/-- Witness for C9: a resolved in-range start and a rejected negative one. -/
theorem C9_start_index_witness :
    ((0 : Int) ≤ 1 ∧
      resolve_slide_index demoCfgs 1 2 =
        2 + ((demoCfgs.take (1 : Int).toNat).map fun x => (x.slides.length : Int)).sum) ∧
    (resolve_slide_index demoCfgs 0 (-5) < 0 ∧
      present_start_index demoCfgs 0 (-5) = .error "First slide is number 0") :=
  ⟨⟨by decide, (C9_start_index demoCfgs 1 2).1 (by decide)⟩,
   ⟨by decide, (C9_start_index demoCfgs 0 (-5)).2.1 (by decide)⟩⟩

end ManimSlides
